import Mathlib

/-!
Shallow embedding of the image-normalization transform (`preprocessImage`)
of the text-scanner repository, and verification of its specification.

The repository contains two variants of the transform:

* `src/src/App.tsx` (`preprocessImage`, lines 38-65): per pixel, computes
  `gray = 0.299*R + 0.587*G + 0.114*B`, then
  `factor = (259 * (contrast + 255)) / (255 * (259 - contrast))` with the
  hard-coded `contrast = 1.5`, `enhanced = factor * (gray - 128) + 128`,
  and writes `enhanced > 128 ? 255 : 0` to the R, G and B channels,
  leaving the alpha byte untouched.

* `src/src/components/CameraCapture.tsx` (`preprocessImage`, lines
  59-82): per pixel, computes `avg = (R + G + B) / 3` and writes
  `avg > 128 ? 255 : 0` to R, G and B, leaving alpha untouched.

Both iterate over the flat RGBA byte array of an `ImageData` in steps of
four, and put the mutated array back into the same-size canvas region, so
we model a bitmap as a width, a height and a list of RGBA pixels, and each
variant as a `List.map` of its per-pixel function.  JavaScript number
arithmetic is modelled by exact rational arithmetic over `ℚ`.
-/

/-- One RGBA pixel: four channel bytes as read from the flat
`ImageData.data` array (group of four consecutive entries). -/
structure Pixel where
  r : ℕ
  g : ℕ
  b : ℕ
  a : ℕ
deriving DecidableEq, Repr

/-- A decoded raster image: the `width`/`height` of the `ImageData`
together with its pixel grid flattened row-major, as the source's
`ctx.getImageData(0, 0, canvas.width, canvas.height)` exposes it. -/
structure Bitmap where
  width : ℕ
  height : ℕ
  data : List Pixel
deriving DecidableEq, Repr

namespace App

/-- Source: `const gray = 0.299 * data[i] + 0.587 * data[i + 1] + 0.114 * data[i + 2]`
(App.tsx line 48). -/
def gray (p : Pixel) : ℚ :=
  0.299 * (p.r : ℚ) + 0.587 * (p.g : ℚ) + 0.114 * (p.b : ℚ)

/-- Source: `const contrast = 1.5` (App.tsx line 51). -/
def contrast : ℚ := 1.5

/-- Source: `const factor = (259 * (contrast + 255)) / (255 * (259 - contrast))`
(App.tsx line 52), as a function of the contrast constant. -/
def factor (c : ℚ) : ℚ := (259 * (c + 255)) / (255 * (259 - c))

/-- Source: `const enhanced = factor * (gray - 128) + 128` (App.tsx line 53). -/
def enhanced (c : ℚ) (g : ℚ) : ℚ := factor c * (g - 128) + 128

/-- Source: `const threshold = enhanced > 128 ? 255 : 0` (App.tsx line 56); the
source compares `enhanced` against the literal `128`, which we expose as
the parameter `t` so that the instance actually run is `value contrast 128`. -/
def value (c : ℚ) (t : ℚ) (g : ℚ) : ℕ :=
  if t < enhanced c g then 255 else 0

/-- Per-pixel body of the App.tsx loop with the comparison bound `t` and
contrast `c` as parameters: `data[i] = data[i+1] = data[i+2] = threshold`,
`data[i+3]` untouched (App.tsx lines 58-60). -/
def transformPixelC (c t : ℚ) (p : Pixel) : Pixel :=
  { r := value c t (gray p)
    g := value c t (gray p)
    b := value c t (gray p)
    a := p.a }

/-- Per-pixel body of the App.tsx loop exactly as run: contrast `1.5`,
comparison bound `128`. -/
def transformPixel (p : Pixel) : Pixel := transformPixelC contrast 128 p

/-- The App.tsx loop with parametrised contrast and bound: the `for` loop
over `data` in steps of four applies the per-pixel body independently to
every pixel; `putImageData` writes the array back at the same origin, so
width and height are unchanged. -/
def preprocessC (c t : ℚ) (bm : Bitmap) : Bitmap :=
  { width := bm.width, height := bm.height
    data := bm.data.map (transformPixelC c t) }

/-- Function `preprocessImage` of App.tsx (lines 38-65) on the pixel grid. -/
def preprocessImage (bm : Bitmap) : Bitmap :=
  { width := bm.width, height := bm.height
    data := bm.data.map transformPixel }

end App

namespace Camera

/-- Source: `const avg = (data[i] + data[i + 1] + data[i + 2]) / 3`
(CameraCapture.tsx line 69). -/
def avg (p : Pixel) : ℚ := ((p.r : ℚ) + (p.g : ℚ) + (p.b : ℚ)) / 3

/-- Source: `const threshold = 128` (CameraCapture.tsx line 72). -/
def threshold : ℚ := 128

/-- Source: `const value = avg > threshold ? 255 : 0` (CameraCapture.tsx line 73). -/
def value (p : Pixel) : ℕ := if threshold < avg p then 255 else 0

/-- Per-pixel body of the CameraCapture.tsx loop:
`data[i] = data[i+1] = data[i+2] = value`, alpha untouched (lines 75-77). -/
def transformPixel (p : Pixel) : Pixel :=
  { r := value p, g := value p, b := value p, a := p.a }

/-- Function `preprocessImage` of CameraCapture.tsx (lines 59-82) on the pixel
grid: the loop over `data` in steps of four, then `putImageData` at the
same origin. -/
def preprocessImage (bm : Bitmap) : Bitmap :=
  { width := bm.width, height := bm.height
    data := bm.data.map transformPixel }

end Camera

/-- A small concrete test bitmap (one arbitrary mid-tone pixel). -/
def bm1 : Bitmap := ⟨1, 1, [⟨10, 20, 30, 40⟩]⟩

/-- A concrete fully white 1-by-1 bitmap. -/
def bmW : Bitmap := ⟨1, 1, [⟨255, 255, 255, 7⟩]⟩

/-- A concrete fully black 1-by-1 bitmap. -/
def bmB : Bitmap := ⟨1, 1, [⟨0, 0, 0, 7⟩]⟩

/-- The App.tsx transform is the parametrised loop at the hard-coded
contrast `1.5` and comparison bound `128`. -/
theorem preprocessImage_eq (bm : Bitmap) :
    App.preprocessImage bm = App.preprocessC App.contrast 128 bm := rfl

/-- The factor for the hard-coded contrast 1.5 is strictly positive. -/
theorem factor_contrast_pos : 0 < App.factor App.contrast := by
  norm_num [App.factor, App.contrast]

/-- For every valid contrast (positive and below the 259 pole), the
contrast factor is strictly greater than 1. -/
theorem one_lt_factor {c : ℚ} (hc0 : 0 < c) (hc : c < 259) :
    1 < App.factor c := by
  rw [App.factor, lt_div_iff₀ (by nlinarith)]
  nlinarith

/-- For every valid contrast, the contrast factor is positive. -/
theorem factor_pos {c : ℚ} (hc0 : 0 < c) (hc : c < 259) :
    0 < App.factor c :=
  lt_trans one_pos (one_lt_factor hc0 hc)

/-- The BT.601 weights sum to one, so a uniform pixel keeps its level. -/
theorem gray_const (v a : ℕ) : App.gray ⟨v, v, v, a⟩ = v := by
  rw [App.gray]; push_cast; ring

/-- The binarized output of the App.tsx loop is always 0 or 255. -/
theorem value_eq_or (c t g : ℚ) : App.value c t g = 0 ∨ App.value c t g = 255 := by
  rw [App.value]; split
  · exact Or.inr rfl
  · exact Or.inl rfl

/-- With a factor above 1 and bound below 255, luminance 255 binarizes to 255. -/
theorem value_at_255 {c t : ℚ} (hf : 1 < App.factor c) (ht : t < 255) :
    App.value c t 255 = 255 := by
  rw [App.value, App.enhanced, if_pos (by nlinarith)]

/-- With a factor above 1 and positive bound, luminance 0 binarizes to 0. -/
theorem value_at_0 {c t : ℚ} (hf : 1 < App.factor c) (ht : 0 < t) :
    App.value c t 0 = 0 := by
  rw [App.value, App.enhanced, if_neg (by nlinarith)]

/-- The binarized output of the CameraCapture.tsx loop is always 0 or 255. -/
theorem camera_value_eq_or (p : Pixel) : Camera.value p = 0 ∨ Camera.value p = 255 := by
  rw [Camera.value]; split
  · exact Or.inr rfl
  · exact Or.inl rfl

/-- Claim C1: for every input bitmap, every pixel of the output of either
variant of `preprocessImage` has mutually equal R, G, B channels, each
exactly 0 or 255 — the output is strictly bi-level. -/
theorem C1_output_bilevel (bm : Bitmap) :
    (∀ p ∈ (App.preprocessImage bm).data,
      p.r = p.g ∧ p.g = p.b ∧ (p.r = 0 ∨ p.r = 255)) ∧
    (∀ p ∈ (Camera.preprocessImage bm).data,
      p.r = p.g ∧ p.g = p.b ∧ (p.r = 0 ∨ p.r = 255)) := by
  constructor
  · intro p hp
    rw [App.preprocessImage, List.mem_map] at hp
    obtain ⟨q, -, rfl⟩ := hp
    exact ⟨rfl, rfl, value_eq_or _ _ _⟩
  · intro p hp
    rw [Camera.preprocessImage, List.mem_map] at hp
    obtain ⟨q, -, rfl⟩ := hp
    exact ⟨rfl, rfl, camera_value_eq_or q⟩

/-- Witness for C1 at a concrete bitmap and output pixel. -/
theorem C1_output_bilevel_witness :
    (⟨0, 0, 0, 40⟩ : Pixel).r = (⟨0, 0, 0, 40⟩ : Pixel).g ∧
    (⟨0, 0, 0, 40⟩ : Pixel).g = (⟨0, 0, 0, 40⟩ : Pixel).b ∧
    ((⟨0, 0, 0, 40⟩ : Pixel).r = 0 ∨ (⟨0, 0, 0, 40⟩ : Pixel).r = 255) :=
  (C1_output_bilevel bm1).1 ⟨0, 0, 0, 40⟩ (by
    norm_num [bm1, App.preprocessImage, App.transformPixel, App.transformPixelC,
      App.value, App.enhanced, App.factor, App.contrast, App.gray])

/-- Claim C5: the 2-by-1 bitmap with pixels (200,200,200) and (50,50,50),
under the App.tsx transform (contrast 1.5, bound 128), produces the
pixels (255,255,255) and (0,0,0), alpha unchanged. -/
theorem C5_concrete_example :
    App.preprocessImage ⟨2, 1, [⟨200, 200, 200, 255⟩, ⟨50, 50, 50, 255⟩]⟩
      = ⟨2, 1, [⟨255, 255, 255, 255⟩, ⟨0, 0, 0, 255⟩]⟩ := by
  norm_num [App.preprocessImage, App.transformPixel, App.transformPixelC,
    App.value, App.enhanced, App.factor, App.contrast, App.gray]

/-- Claim C8: both variants write one binarized value to R, G and B and
leave the alpha channel of every pixel unchanged, positionally. -/
theorem C8_alpha_preserved (bm : Bitmap) :
    (App.preprocessImage bm).data.map Pixel.a = bm.data.map Pixel.a ∧
    (∀ p ∈ (App.preprocessImage bm).data, p.r = p.g ∧ p.g = p.b) ∧
    (Camera.preprocessImage bm).data.map Pixel.a = bm.data.map Pixel.a ∧
    (∀ p ∈ (Camera.preprocessImage bm).data, p.r = p.g ∧ p.g = p.b) := by
  refine ⟨?_, ?_, ?_, ?_⟩
  · rw [App.preprocessImage]
    show (bm.data.map App.transformPixel).map Pixel.a = bm.data.map Pixel.a
    rw [List.map_map]; rfl
  · intro p hp
    rw [App.preprocessImage, List.mem_map] at hp
    obtain ⟨q, -, rfl⟩ := hp
    exact ⟨rfl, rfl⟩
  · rw [Camera.preprocessImage]
    show (bm.data.map Camera.transformPixel).map Pixel.a = bm.data.map Pixel.a
    rw [List.map_map]; rfl
  · intro p hp
    rw [Camera.preprocessImage, List.mem_map] at hp
    obtain ⟨q, -, rfl⟩ := hp
    exact ⟨rfl, rfl⟩

/-- Witness for C8 at a concrete bitmap and output pixel. -/
theorem C8_alpha_preserved_witness :
    (App.preprocessImage bm1).data.map Pixel.a = bm1.data.map Pixel.a ∧
    (⟨0, 0, 0, 40⟩ : Pixel).r = (⟨0, 0, 0, 40⟩ : Pixel).g ∧
    (⟨0, 0, 0, 40⟩ : Pixel).g = (⟨0, 0, 0, 40⟩ : Pixel).b :=
  ⟨(C8_alpha_preserved bm1).1,
   (C8_alpha_preserved bm1).2.1 ⟨0, 0, 0, 40⟩ (by
    norm_num [bm1, App.preprocessImage, App.transformPixel, App.transformPixelC,
      App.value, App.enhanced, App.factor, App.contrast, App.gray])⟩

/-- Claim C9: both variants preserve width, height and the number of
pixels of the input bitmap. -/
theorem C9_dimensions_preserved (bm : Bitmap) :
    (App.preprocessImage bm).width = bm.width ∧
    (App.preprocessImage bm).height = bm.height ∧
    (App.preprocessImage bm).data.length = bm.data.length ∧
    (Camera.preprocessImage bm).width = bm.width ∧
    (Camera.preprocessImage bm).height = bm.height ∧
    (Camera.preprocessImage bm).data.length = bm.data.length := by
  refine ⟨rfl, rfl, ?_, rfl, rfl, ?_⟩
  · rw [App.preprocessImage]
    exact List.length_map bm.data App.transformPixel
  · rw [Camera.preprocessImage]
    exact List.length_map bm.data Camera.transformPixel

/-- Claim C2: per pixel, the output value is 255 exactly when the
contrast-stretched value `factor * (gray - 128) + 128`, with
`factor = (259 * (1.5 + 255)) / (255 * (259 - 1.5))`, exceeds the bound
128 — stated with the factor formula spelled out literally.  The App.tsx
variant computes exactly this; the CameraCapture.tsx variant compares its
luminance directly against 128, which coincides extensionally with the
curve-then-compare form because the factor is positive and its bound
equals the curve's midpoint. -/
theorem C2_contrast_curve (p : Pixel) :
    ((App.transformPixel p).r =
      if (128 : ℚ) < (259 * (1.5 + 255)) / (255 * (259 - 1.5))
          * (App.gray p - 128) + 128 then 255 else 0) ∧
    ((Camera.transformPixel p).r =
      if (128 : ℚ) < (259 * (1.5 + 255)) / (255 * (259 - 1.5))
          * (Camera.avg p - 128) + 128 then 255 else 0) := by
  constructor
  · rfl
  · have hf : (0 : ℚ) < (259 * (1.5 + 255)) / (255 * (259 - 1.5)) := by norm_num
    show Camera.value p = _
    rw [Camera.value, Camera.threshold]
    by_cases h : (128 : ℚ) < Camera.avg p
    · rw [if_pos h, if_pos (by nlinarith)]
    · rw [if_neg h, if_neg (by intro hc; exact h (by nlinarith))]

/-- Counterexample to claim C3: the CameraCapture.tsx variant does not
use the BT.601 weights.  At the pixel (255,0,0) its luminance is 85 while
the BT.601 luminance is 76.245; at the pixel (255,0,255) the two cited
variants even produce opposite output values (255 versus 0). -/
theorem C3_counterexample :
    Camera.avg ⟨255, 0, 0, 255⟩ ≠ 0.299 * 255 + 0.587 * 0 + 0.114 * 0 ∧
    Camera.avg ⟨255, 0, 0, 255⟩ ≠ App.gray ⟨255, 0, 0, 255⟩ ∧
    (Camera.transformPixel ⟨255, 0, 255, 255⟩).r = 255 ∧
    (App.transformPixel ⟨255, 0, 255, 255⟩).r = 0 := by
  refine ⟨by norm_num [Camera.avg], by norm_num [Camera.avg, App.gray], ?_, ?_⟩
  · norm_num [Camera.transformPixel, Camera.value, Camera.threshold, Camera.avg]
  · norm_num [App.transformPixel, App.transformPixelC, App.value,
      App.enhanced, App.factor, App.contrast, App.gray]

/-- Amended claim C3: the App.tsx variant computes its luminance with the
BT.601 weights 0.299, 0.587, 0.114, while the CameraCapture.tsx variant
computes the unweighted mean (R + G + B) / 3. -/
theorem C3_amended (p : Pixel) :
    App.gray p = (299 * (p.r : ℚ) + 587 * (p.g : ℚ) + 114 * (p.b : ℚ)) / 1000 ∧
    Camera.avg p = ((p.r : ℚ) + (p.g : ℚ) + (p.b : ℚ)) / 3 := by
  constructor
  · rw [App.gray]; norm_num; ring
  · rfl

/-- Counterexample to claim C4: at the invalid input (a width-0 bitmap)
neither variant fails — both are total and return the bitmap with its
empty pixel grid unchanged, so no `InvalidArgument` error is raised. -/
theorem C4_counterexample :
    App.preprocessImage ⟨0, 1, []⟩ = ⟨0, 1, []⟩ ∧
    Camera.preprocessImage ⟨0, 1, []⟩ = ⟨0, 1, []⟩ :=
  ⟨rfl, rfl⟩

/-- Amended claim C4: the transform performs no input validation and has
no error path; contrast and the binarization bound are hard-coded (1.5
and 128 in App.tsx, 128 in CameraCapture.tsx) with no configuration
parameter, and on any width-0 (empty-grid) bitmap both variants return
the bitmap unchanged, so trivially no mutation occurs. -/
theorem C4_no_validation (w h : ℕ) :
    App.preprocessImage ⟨w, h, []⟩ = ⟨w, h, []⟩ ∧
    Camera.preprocessImage ⟨w, h, []⟩ = ⟨w, h, []⟩ ∧
    App.contrast = 1.5 ∧ Camera.threshold = 128 :=
  ⟨rfl, rfl, rfl, rfl⟩

/-- Applying the App.tsx per-pixel body twice with bound 128 and a valid
contrast equals applying it once: the recomputed luminance of an output
pixel is 0 or 255, and the curve keeps 0 below and 255 above the bound. -/
theorem transformPixelC_idem {c : ℚ} (hc0 : 0 < c) (hc : c < 259) (p : Pixel) :
    App.transformPixelC c 128 (App.transformPixelC c 128 p)
      = App.transformPixelC c 128 p := by
  have hf := one_lt_factor hc0 hc
  rcases value_eq_or c 128 (App.gray p) with h | h
  · have h0 : App.value c 128 (App.gray ⟨0, 0, 0, p.a⟩) = 0 := by
      have hg : App.gray ⟨0, 0, 0, p.a⟩ = 0 := by rw [gray_const]; norm_num
      rw [hg]; exact value_at_0 hf (by norm_num)
    simp [App.transformPixelC, h, h0]
  · have h255 : App.value c 128 (App.gray ⟨255, 255, 255, p.a⟩) = 255 := by
      have hg : App.gray ⟨255, 255, 255, p.a⟩ = 255 := by rw [gray_const]; norm_num
      rw [hg]; exact value_at_255 hf (by norm_num)
    simp [App.transformPixelC, h, h255]

/-- Applying the CameraCapture.tsx per-pixel body twice equals applying
it once: the mean of an output pixel is 0 or 255, decided the same way. -/
theorem camera_transformPixel_idem (p : Pixel) :
    Camera.transformPixel (Camera.transformPixel p) = Camera.transformPixel p := by
  rcases camera_value_eq_or p with h | h
  · have h0 : Camera.value ⟨0, 0, 0, p.a⟩ = 0 := by
      norm_num [Camera.value, Camera.avg, Camera.threshold]
    simp [Camera.transformPixel, h, h0]
  · have h255 : Camera.value ⟨255, 255, 255, p.a⟩ = 255 := by
      norm_num [Camera.value, Camera.avg, Camera.threshold]
    simp [Camera.transformPixel, h, h255]

/-- Counterexample to claim C6: contrast 300 is a configuration with a
positive contrast and bound 128, yet the transform is not idempotent
there — its factor is negative, so one application maps the black bitmap
to white and a second application maps it back to black. -/
theorem C6_counterexample :
    App.preprocessC 300 128 bmB = ⟨1, 1, [⟨255, 255, 255, 7⟩]⟩ ∧
    App.preprocessC 300 128 (App.preprocessC 300 128 bmB) = ⟨1, 1, [⟨0, 0, 0, 7⟩]⟩ ∧
    App.preprocessC 300 128 (App.preprocessC 300 128 bmB)
      ≠ App.preprocessC 300 128 bmB := by
  have h1 : App.preprocessC 300 128 bmB = ⟨1, 1, [⟨255, 255, 255, 7⟩]⟩ := by
    norm_num [bmB, App.preprocessC, App.transformPixelC, App.value,
      App.enhanced, App.factor, App.gray]
  have h2 : App.preprocessC 300 128 (App.preprocessC 300 128 bmB)
      = ⟨1, 1, [⟨0, 0, 0, 7⟩]⟩ := by
    rw [h1]
    norm_num [App.preprocessC, App.transformPixelC, App.value,
      App.enhanced, App.factor, App.gray]
  refine ⟨h1, h2, ?_⟩
  rw [h2, h1]
  simp

/-- Amended claim C6: with the binarization bound 128 and any contrast
strictly between 0 and 259 (where the contrast factor is positive),
applying the transform twice yields the same bitmap as applying it once —
for the parametrised App.tsx loop, for the App.tsx loop with its
hard-coded constants, and for the CameraCapture.tsx loop. -/
theorem C6_idempotent (c : ℚ) (bm : Bitmap) (hc0 : 0 < c) (hc : c < 259) :
    App.preprocessC c 128 (App.preprocessC c 128 bm) = App.preprocessC c 128 bm ∧
    App.preprocessImage (App.preprocessImage bm) = App.preprocessImage bm ∧
    Camera.preprocessImage (Camera.preprocessImage bm) = Camera.preprocessImage bm := by
  refine ⟨?_, ?_, ?_⟩
  · simp only [App.preprocessC, List.map_map, Bitmap.mk.injEq, true_and]
    exact List.map_congr_left fun p _ => transformPixelC_idem hc0 hc p
  · have h15 : ∀ p, App.transformPixel (App.transformPixel p) = App.transformPixel p :=
      fun p => transformPixelC_idem (c := App.contrast)
        (by norm_num [App.contrast]) (by norm_num [App.contrast]) p
    simp only [App.preprocessImage, List.map_map, Bitmap.mk.injEq, true_and]
    exact List.map_congr_left fun p _ => h15 p
  · simp only [Camera.preprocessImage, List.map_map, Bitmap.mk.injEq, true_and]
    exact List.map_congr_left fun p _ => camera_transformPixel_idem p

/-- Witness for C6 at contrast 1.5 and a concrete bitmap. -/
theorem C6_idempotent_witness :
    App.preprocessC 1.5 128 (App.preprocessC 1.5 128 bm1) = App.preprocessC 1.5 128 bm1 ∧
    App.preprocessImage (App.preprocessImage bm1) = App.preprocessImage bm1 ∧
    Camera.preprocessImage (Camera.preprocessImage bm1) = Camera.preprocessImage bm1 :=
  C6_idempotent 1.5 bm1 (by norm_num) (by norm_num)

/-- Counterexample to claim C7: at contrast 300 — which is positive, with
the bound 128 both below 255 and above 0 — the factor is negative and the
transform inverts: the fully white bitmap normalizes to fully black and
the fully black bitmap to fully white. -/
theorem C7_counterexample :
    (0 : ℚ) < 300 ∧ (128 : ℚ) < 255 ∧ (0 : ℚ) < 128 ∧
    App.preprocessC 300 128 bmW = ⟨1, 1, [⟨0, 0, 0, 7⟩]⟩ ∧
    App.preprocessC 300 128 bmB = ⟨1, 1, [⟨255, 255, 255, 7⟩]⟩ := by
  refine ⟨by norm_num, by norm_num, by norm_num, ?_, ?_⟩
  · norm_num [bmW, App.preprocessC, App.transformPixelC, App.value,
      App.enhanced, App.factor, App.gray]
  · norm_num [bmB, App.preprocessC, App.transformPixelC, App.value,
      App.enhanced, App.factor, App.gray]

/-- Amended claim C7: for any contrast strictly between 0 and 259, a
fully white bitmap normalizes to fully white whenever the bound is below
255, and a fully black bitmap to fully black whenever the bound is
positive; the CameraCapture.tsx variant (fixed bound 128) does the same. -/
theorem C7_white_black (c t : ℚ) (bm : Bitmap) (hc0 : 0 < c) (hc : c < 259) :
    ((∀ p ∈ bm.data, p.r = 255 ∧ p.g = 255 ∧ p.b = 255) → t < 255 →
      ∀ q ∈ (App.preprocessC c t bm).data, q.r = 255 ∧ q.g = 255 ∧ q.b = 255) ∧
    ((∀ p ∈ bm.data, p.r = 0 ∧ p.g = 0 ∧ p.b = 0) → 0 < t →
      ∀ q ∈ (App.preprocessC c t bm).data, q.r = 0 ∧ q.g = 0 ∧ q.b = 0) ∧
    ((∀ p ∈ bm.data, p.r = 255 ∧ p.g = 255 ∧ p.b = 255) →
      ∀ q ∈ (Camera.preprocessImage bm).data, q.r = 255 ∧ q.g = 255 ∧ q.b = 255) ∧
    ((∀ p ∈ bm.data, p.r = 0 ∧ p.g = 0 ∧ p.b = 0) →
      ∀ q ∈ (Camera.preprocessImage bm).data, q.r = 0 ∧ q.g = 0 ∧ q.b = 0) := by
  have hf := one_lt_factor hc0 hc
  refine ⟨?_, ?_, ?_, ?_⟩
  · intro hwhite ht q hq
    simp only [App.preprocessC, List.mem_map] at hq
    obtain ⟨p, hp, rfl⟩ := hq
    obtain ⟨h1, h2, h3⟩ := hwhite p hp
    have hg : App.gray p = 255 := by rw [App.gray, h1, h2, h3]; norm_num
    have hv : App.value c t (App.gray p) = 255 := by
      rw [hg]; exact value_at_255 hf ht
    exact ⟨hv, hv, hv⟩
  · intro hblack ht q hq
    simp only [App.preprocessC, List.mem_map] at hq
    obtain ⟨p, hp, rfl⟩ := hq
    obtain ⟨h1, h2, h3⟩ := hblack p hp
    have hg : App.gray p = 0 := by rw [App.gray, h1, h2, h3]; norm_num
    have hv : App.value c t (App.gray p) = 0 := by
      rw [hg]; exact value_at_0 hf ht
    exact ⟨hv, hv, hv⟩
  · intro hwhite q hq
    simp only [Camera.preprocessImage, List.mem_map] at hq
    obtain ⟨p, hp, rfl⟩ := hq
    obtain ⟨h1, h2, h3⟩ := hwhite p hp
    have hv : Camera.value p = 255 := by
      have hlt : Camera.threshold < Camera.avg p := by
        rw [Camera.avg, h1, h2, h3, Camera.threshold]; norm_num
      rw [Camera.value, if_pos hlt]
    exact ⟨hv, hv, hv⟩
  · intro hblack q hq
    simp only [Camera.preprocessImage, List.mem_map] at hq
    obtain ⟨p, hp, rfl⟩ := hq
    obtain ⟨h1, h2, h3⟩ := hblack p hp
    have hv : Camera.value p = 0 := by
      have hle : ¬ Camera.threshold < Camera.avg p := by
        rw [Camera.avg, h1, h2, h3, Camera.threshold]; norm_num
      rw [Camera.value, if_neg hle]
    exact ⟨hv, hv, hv⟩

/-- Witness for C7 at contrast 1.5, bound 128, the concrete white and
black bitmaps and their output pixels. -/
theorem C7_white_black_witness :
    ((⟨255, 255, 255, 7⟩ : Pixel).r = 255 ∧ (⟨255, 255, 255, 7⟩ : Pixel).g = 255 ∧
      (⟨255, 255, 255, 7⟩ : Pixel).b = 255) ∧
    ((⟨0, 0, 0, 7⟩ : Pixel).r = 0 ∧ (⟨0, 0, 0, 7⟩ : Pixel).g = 0 ∧
      (⟨0, 0, 0, 7⟩ : Pixel).b = 0) :=
  ⟨(C7_white_black 1.5 128 bmW (by norm_num) (by norm_num)).1
      (by decide) (by norm_num) ⟨255, 255, 255, 7⟩
      (by norm_num [bmW, App.preprocessC, App.transformPixelC,
        App.value, App.enhanced, App.factor, App.gray]),
   (C7_white_black 1.5 128 bmB (by norm_num) (by norm_num)).2.1
      (by decide) (by norm_num) ⟨0, 0, 0, 7⟩
      (by norm_num [bmB, App.preprocessC, App.transformPixelC,
        App.value, App.enhanced, App.factor, App.gray])⟩

/-- Claim C10: the per-pixel transforms are monotone in their computed
luminance: a pixel with lower (or equal) luminance never receives a
strictly larger output value, in either variant. -/
theorem C10_monotone (p1 p2 : Pixel) :
    (App.gray p1 ≤ App.gray p2 →
      (App.transformPixel p1).r ≤ (App.transformPixel p2).r) ∧
    (Camera.avg p1 ≤ Camera.avg p2 →
      (Camera.transformPixel p1).r ≤ (Camera.transformPixel p2).r) := by
  constructor
  · intro hg
    show App.value App.contrast 128 (App.gray p1)
      ≤ App.value App.contrast 128 (App.gray p2)
    have hf : (0 : ℚ) < App.factor App.contrast := factor_contrast_pos
    rw [App.value, App.value]
    by_cases h1 : (128 : ℚ) < App.enhanced App.contrast (App.gray p1)
    · have h2 : (128 : ℚ) < App.enhanced App.contrast (App.gray p2) := by
        rw [App.enhanced] at h1 ⊢; nlinarith
      rw [if_pos h1, if_pos h2]
    · rw [if_neg h1]
      exact Nat.zero_le _
  · intro hg
    show Camera.value p1 ≤ Camera.value p2
    rw [Camera.value, Camera.value]
    by_cases h1 : Camera.threshold < Camera.avg p1
    · rw [if_pos h1, if_pos (lt_of_lt_of_le h1 hg)]
    · rw [if_neg h1]
      exact Nat.zero_le _

/-- Witness for C10 at the black and white pixels. -/
theorem C10_monotone_witness :
    (App.transformPixel ⟨0, 0, 0, 0⟩).r ≤ (App.transformPixel ⟨255, 255, 255, 0⟩).r ∧
    (Camera.transformPixel ⟨0, 0, 0, 0⟩).r ≤ (Camera.transformPixel ⟨255, 255, 255, 0⟩).r :=
  ⟨(C10_monotone ⟨0, 0, 0, 0⟩ ⟨255, 255, 255, 0⟩).1 (by norm_num [App.gray]),
   (C10_monotone ⟨0, 0, 0, 0⟩ ⟨255, 255, 255, 0⟩).2 (by norm_num [Camera.avg])⟩
